import Mathlib

/-!
Shallow embedding of the hypervisor-abstraction core of
`src/backend/libvirt_manager.py` (class `LibvirtManager`), together with
theorems settling the specification claims about it.

Modelling conventions:
* Python `float` time values and libvirt nanosecond counters are modelled as
  rationals (`ℚ`): the claims under study are about exact real arithmetic
  (clamping, guards, unit conversion), not about binary floating point.
* Python `round(x, 2)` is modelled as `round2` below (round half up to two
  decimal places; the claims do not depend on tie-breaking).
* Calls into the libvirt hypervisor are modelled by explicit inputs (the
  values the calls return) and by a trace of issued `HyperCall`s, so that
  frame claims ("no mutating call is issued") are stated over the trace.
* A hypervisor call that may raise `libvirt.libvirtError` is modelled by an
  `Option`/outcome parameter (`none` = the call raised).
-/

namespace MobileKVM

/-! ### libvirt constants (values of the libvirt-python bindings) -/

def VIR_DOMAIN_NOSTATE : Nat := 0

def VIR_DOMAIN_RUNNING : Nat := 1

def VIR_DOMAIN_BLOCKED : Nat := 2

def VIR_DOMAIN_PAUSED : Nat := 3

def VIR_DOMAIN_SHUTDOWN : Nat := 4

def VIR_DOMAIN_SHUTOFF : Nat := 5

def VIR_DOMAIN_CRASHED : Nat := 6

def VIR_DOMAIN_PMSUSPENDED : Nat := 7

def VIR_DOMAIN_AFFECT_CURRENT : Nat := 0

def VIR_DOMAIN_AFFECT_CONFIG : Nat := 2

/-- The apostrophe character used by the French messages in the source. -/
def apos : String := String.singleton (Char.ofNat 39)

/-- `VM_STATE_MAP` (libvirt_manager.py lines 23-32), a dict from libvirt
state codes to display labels, modelled as a finite map into Option. -/
def VM_STATE_MAP (c : Nat) : Option String :=
  if c = VIR_DOMAIN_NOSTATE then some "no_state"
  else if c = VIR_DOMAIN_RUNNING then some "running"
  else if c = VIR_DOMAIN_BLOCKED then some "blocked"
  else if c = VIR_DOMAIN_PAUSED then some "paused"
  else if c = VIR_DOMAIN_SHUTDOWN then some "shutdown"
  else if c = VIR_DOMAIN_SHUTOFF then some "stopped"
  else if c = VIR_DOMAIN_CRASHED then some "crashed"
  else if c = VIR_DOMAIN_PMSUSPENDED then some "suspended"
  else none

/-- `VM_STATE_MAP.get(state_id, "unknown")` as used by `_vm_basic_info`
(line 188) and `vm_metrics` (line 460). -/
def stateLabel (c : Nat) : String := (VM_STATE_MAP c).getD "unknown"

/-! ### Errors (libvirt_manager.py lines 35-47) -/

/-- The exception classes raised by `LibvirtManager`: `LibvirtError` is the
generic operation error, `VMNotFoundError` and `LibvirtConnectionError`
are its two refinements. -/
inductive ManagerError where
  | libvirtError (message : String)
  | vmNotFoundError (message : String)
  | connectionError (message : String)
deriving DecidableEq, Repr

/-- Kind of a `libvirt.libvirtError` raised by the hypervisor client.
The Python code never inspects the kind; it is carried here so that claims
distinguishing "not found" from "connection broken" can be stated. -/
inductive LibvirtErrKind where
  | noDomain
  | connectionBroken
  | otherFailure
deriving DecidableEq, Repr

/-- A resolved domain handle: the name and whether `isActive()` reports 1. -/
structure Domain where
  name : String
  active : Bool
deriving DecidableEq, Repr

/-- Outcome of `conn.lookupByName(name)`: either a domain handle or a raised
`libvirt.libvirtError` of some kind. -/
inductive LookupOutcome where
  | found (d : Domain)
  | err (k : LibvirtErrKind)
deriving DecidableEq, Repr

/-- `LibvirtManager._get_domain` (lines 85-91): returns the domain from
`conn.lookupByName`, and turns every `libvirt.libvirtError` raised by the
lookup — whatever its kind — into `VMNotFoundError`. -/
def _get_domain (name : String) (outcome : LookupOutcome) : Except ManagerError Domain :=
  match outcome with
  | .found d => .ok d
  | .err _ =>
      .error (.vmNotFoundError ("VM " ++ apos ++ name ++ apos ++ " introuvable"))

/-- Recognizer for the `VMNotFoundError` outcome of `_get_domain`. -/
def isVmNotFound (r : Except ManagerError Domain) : Bool :=
  match r with
  | .error (.vmNotFoundError _) => true
  | _ => false

/-! ### Hypervisor call traces -/

/-- Calls a lifecycle / resource operation issues on a domain handle.
`isActiveQ` and `infoQ` are read-only queries; the rest mutate state. -/
inductive HyperCall where
  | isActiveQ
  | infoQ
  | create
  | shutdown
  | destroy
  | reboot (flags : Nat)
  | reset (flags : Nat)
  | setMaxMemory (kib : Int)
  | setMemoryFlags (kib : Int) (flags : Nat)
  | setVcpusFlags (n : Int) (flags : Nat)
deriving DecidableEq, Repr

/-- Whether a hypervisor call mutates domain state. -/
def HyperCall.mutating : HyperCall → Bool
  | .isActiveQ => false
  | .infoQ => false
  | _ => true

/-- Result dict of a lifecycle action (`status`, `name`, `message`). -/
structure ActionResult where
  status : String
  name : String
  message : String
deriving DecidableEq, Repr

/-- `LibvirtManager.start_vm` (lines 288-304), happy path: the result dict
and the trace of calls issued on the domain handle. -/
def start_vm (dom : Domain) : ActionResult × List HyperCall :=
  if dom.active then
    (⟨"already_running", dom.name,
      "La VM " ++ apos ++ dom.name ++ apos ++ " est déjà en cours d" ++ apos ++ "exécution."⟩,
     [.isActiveQ])
  else
    (⟨"started", dom.name, "La VM " ++ apos ++ dom.name ++ apos ++ " a été démarrée."⟩,
     [.isActiveQ, .create])

/-- `LibvirtManager.stop_vm` (lines 306-332), happy path. -/
def stop_vm (dom : Domain) (force : Bool) : ActionResult × List HyperCall :=
  if !dom.active then
    (⟨"already_stopped", dom.name,
      "La VM " ++ apos ++ dom.name ++ apos ++ " est déjà arrêtée."⟩,
     [.isActiveQ])
  else if force then
    (⟨"stopped", dom.name, "La VM " ++ apos ++ dom.name ++ apos ++ " a été arrêtée (force)."⟩,
     [.isActiveQ, .destroy])
  else
    (⟨"stopped", dom.name, "La VM " ++ apos ++ dom.name ++ apos ++ " a été arrêtée."⟩,
     [.isActiveQ, .shutdown])

/-- `LibvirtManager.restart_vm` (lines 334-371), happy path except that
`resetFails` tells whether `dom.reset(0)` raises (the fallback branch at
lines 350-356). -/
def restart_vm (dom : Domain) (force : Bool) (resetFails : Bool) :
    ActionResult × List HyperCall :=
  if dom.active then
    if force then
      if resetFails then
        (⟨"restarted_hard", dom.name,
          "La VM " ++ apos ++ dom.name ++ apos ++ " a été redémarrée de force."⟩,
         [.isActiveQ, .reset 0, .destroy, .create])
      else
        (⟨"reset", dom.name,
          "La VM " ++ apos ++ dom.name ++ apos ++ " a été réinitialisée physiquement."⟩,
         [.isActiveQ, .reset 0])
    else
      (⟨"restarted", dom.name, "La VM " ++ apos ++ dom.name ++ apos ++ " a été redémarrée."⟩,
       [.isActiveQ, .reboot 0])
  else
    (⟨"started", dom.name,
      "La VM " ++ apos ++ dom.name ++ apos ++ " était arrêtée, elle a été démarrée."⟩,
     [.isActiveQ, .create])

/-- Result dict of `update_resources`. -/
structure UpdateResult where
  status : String
  restart_needed : Bool
  message : String
deriving DecidableEq, Repr

/-- `LibvirtManager.update_resources` (lines 649-687), happy path: converts
MB to KiB, picks `VIR_DOMAIN_AFFECT_CONFIG` for an active VM and
`VIR_DOMAIN_AFFECT_CURRENT` for an inactive one, applies `setMaxMemory`,
`setMemoryFlags` and `setVcpusFlags`, and reports `restart_needed` from
`dom.isActive()`. -/
def update_resources (dom : Domain) (vcpus : Int) (memory_mb : Int) :
    UpdateResult × List HyperCall :=
  let memory_kib := memory_mb * 1024
  let flags := if !dom.active then VIR_DOMAIN_AFFECT_CURRENT else VIR_DOMAIN_AFFECT_CONFIG
  (⟨"updated", dom.active,
    if dom.active then "Modifications appliquées au prochain redémarrage."
    else "Modifications appliquées."⟩,
   [.isActiveQ, .setMaxMemory memory_kib, .setMemoryFlags memory_kib flags,
    .setVcpusFlags vcpus flags, .isActiveQ])

/-! ### Error messages raised as `LibvirtError` (the OperationError tier of the spec) -/

/-- Message of the `LibvirtError` raised by `start_vm` (line 302). -/
def start_vm_error (name e : String) : String :=
  "Impossible de démarrer la VM " ++ apos ++ name ++ apos ++ " : " ++ e

/-- Message of the `LibvirtError` raised by `stop_vm` (line 330). -/
def stop_vm_error (name e : String) : String :=
  "Impossible d" ++ apos ++ "arrêter la VM " ++ apos ++ name ++ apos ++ " : " ++ e

/-- Message of the `LibvirtError` raised by `restart_vm` (line 369). -/
def restart_vm_error (name e : String) : String :=
  "Impossible de redémarrer la VM " ++ apos ++ name ++ apos ++ " : " ++ e

/-- Message of the `LibvirtError` raised by `create_snapshot` (line 611). -/
def create_snapshot_error (e : String) : String :=
  "Impossible de créer le snapshot : " ++ e

/-- Message of the `LibvirtError` raised by `revert_snapshot` (line 627). -/
def revert_snapshot_error (e : String) : String :=
  "Impossible de restaurer le snapshot : " ++ e

/-- Message of the `LibvirtError` raised by `delete_snapshot` (line 642). -/
def delete_snapshot_error (e : String) : String :=
  "Impossible de supprimer le snapshot : " ++ e

/-- Message of the `LibvirtError` raised by `update_resources` (line 685). -/
def update_resources_error (e : String) : String :=
  "Impossible de modifier les ressources : " ++ e

/-- Substring containment, on the character lists of the strings. -/
def containsStr (s sub : String) : Prop := sub.toList <:+: s.toList

instance (s sub : String) : Decidable (containsStr s sub) :=
  inferInstanceAs (Decidable (sub.toList <:+: s.toList))

/-! ### Rounding (Python round(x, 2)) -/

/-- Python `round(x, 2)` modelled over `ℚ`: round `x * 100` to the nearest
integer (half up) and divide by 100. -/
def round2 (q : ℚ) : ℚ := ((Rat.floor (q * 100 + 1 / 2) : ℤ) : ℚ) / 100

/-- Python `max(0.0, min(x, 100.0))` from line 514. -/
def pyClamp (x : ℚ) : ℚ := max 0 (min x 100)

/-! ### CPU sampler (`_compute_cpu_percent`, lines 475-514) -/

/-- One `self._cpu_cache[name]` entry: `{cpu_time, timestamp}`. -/
structure CacheEntry where
  cpu_time : ℚ
  timestamp : ℚ
deriving DecidableEq, Repr

/-- Values the hypervisor and clock return during one `_compute_cpu_percent`
call: `now` is `time.time()` at entry, `cpuRead1` is `dom.info()[4]` of the
first read, `sleepNow`/`cpuRead2` are the clock and counter after the
one-second sleep (used only on the cold path), `numCpus` is `dom.info()[3]`
at the divisor read (line 511). -/
structure CpuEnv where
  now : ℚ
  cpuRead1 : ℚ
  sleepNow : ℚ
  cpuRead2 : ℚ
  numCpus : Nat
deriving DecidableEq, Repr

/-- Observable outcome of `_compute_cpu_percent`: the final values of the
locals `cpu_time_0/timestamp_0/cpu_time_1/timestamp_1`, whether
`time.sleep(1)` ran, the returned percentage, and the cache entry written
at line 504. -/
structure CpuResult where
  cpu_time_0 : ℚ
  timestamp_0 : ℚ
  cpu_time_1 : ℚ
  timestamp_1 : ℚ
  slept : Bool
  percent : ℚ
  newEntry : CacheEntry
deriving DecidableEq, Repr

/-- Lines 503-514 of `_compute_cpu_percent`: update the cache with
`{cpu_time: cpu_time_1, timestamp: timestamp_1}`, return 0.0 when
`dt <= 0`, else the clamped, 2-decimal percentage with
`num_cpus = dom.info()[3] or 1`. -/
def cpuSampleFinish (t0 ts0 t1 ts1 : ℚ) (slept : Bool) (ncpus : Nat) : CpuResult :=
  let dt := ts1 - ts0
  let percent : ℚ :=
    if dt ≤ 0 then 0
    else
      let num_cpus : ℚ := if ncpus = 0 then 1 else (ncpus : ℚ)
      round2 (pyClamp (((t1 - t0) / (dt * num_cpus * 1e9)) * 100))
  ⟨t0, ts0, t1, ts1, slept, percent, ⟨t1, ts1⟩⟩

/-- `LibvirtManager._compute_cpu_percent` (lines 475-514): `cache` is
`self._cpu_cache.get(name)`. A cache entry younger than 5 seconds is used
as the baseline `(cpu_time_0, timestamp_0)`; otherwise the cold path takes
the double sample around a one-second sleep. -/
def _compute_cpu_percent (cache : Option CacheEntry) (env : CpuEnv) : CpuResult :=
  match cache with
  | some prev =>
      if env.now - prev.timestamp < 5 then
        cpuSampleFinish prev.cpu_time prev.timestamp env.cpuRead1 env.now false env.numCpus
      else
        cpuSampleFinish env.cpuRead1 env.now env.cpuRead2 env.sleepNow true env.numCpus
  | none =>
      cpuSampleFinish env.cpuRead1 env.now env.cpuRead2 env.sleepNow true env.numCpus

/-! ### Memory section of `vm_metrics` (lines 405-418) -/

/-- Result of `dom.memoryStats()`: the three keys the code reads, each
possibly absent from the returned dict. -/
structure MemStats where
  rss : Option ℚ
  available : Option ℚ
  actual : Option ℚ
deriving DecidableEq, Repr

/-- The locals computed by the RAM section of `vm_metrics`. -/
structure MemorySection where
  actual_used : ℚ
  available : ℚ
  used_for_percent : ℚ
  memory_percent : ℚ
deriving DecidableEq, Repr

/-- RAM section of `LibvirtManager.vm_metrics` for an active VM (lines
405-418): `memStats = none` models `dom.memoryStats()` raising
`libvirt.libvirtError`; `mem_kib`/`max_mem_kib` come from `dom.info()`.
Note line 418 computes `memory_percent` from `actual_used` (the `rss`
figure), while `used_for_percent` (the `actual` balloon figure) is
assigned at line 412 and then never used. -/
def vm_metrics_memory (memStats : Option MemStats) (mem_kib max_mem_kib : ℚ) :
    MemorySection :=
  let actual_used := match memStats with
    | some s => s.rss.getD mem_kib
    | none => mem_kib
  let available := match memStats with
    | some s => s.available.getD max_mem_kib
    | none => max_mem_kib
  let used_for_percent := match memStats with
    | some s => s.actual.getD mem_kib
    | none => mem_kib
  let memory_percent :=
    if max_mem_kib > 0 then round2 ((actual_used / max_mem_kib) * 100) else 0
  ⟨actual_used, available, used_for_percent, memory_percent⟩

/-- Modelled from the spec: the memory percent as §4.5 of the spec states it,
with the hypervisor-reported "actual" balloon figure preferred over the
coarse live counter as the used value. Stated for comparison with
`vm_metrics_memory`, which the code actually computes. -/
def spec_memory_percent (memStats : Option MemStats) (mem_kib max_mem_kib : ℚ) : ℚ :=
  let used := match memStats with
    | some s => s.actual.getD mem_kib
    | none => mem_kib
  if max_mem_kib > 0 then round2 ((used / max_mem_kib) * 100) else 0

/-! ### Snapshots (`list_snapshots`, lines 575-598) -/

/-- Fields the code reads from one snapshot XML description: the
`creationTime` element text (parsed as an integer) and the `state` element
text, each possibly absent, plus `snap.isCurrent()`. -/
structure SnapshotXml where
  name : String
  creationTime : Option Int
  state : Option String
  isCurrent : Bool
deriving DecidableEq, Repr

/-- The dict appended for one snapshot (lines 589-594). -/
structure SnapshotDescriptor where
  name : String
  creation_time : Int
  state : String
  is_current : Bool
deriving DecidableEq, Repr

/-- Descriptor built from one snapshot XML (lines 589-594, with the
fall-backs `0` and `"unknown"`). -/
def snapDescOf (s : SnapshotXml) : SnapshotDescriptor :=
  ⟨s.name, s.creationTime.getD 0, s.state.getD "unknown", s.isCurrent⟩

/-- Descending-by-creation-time order used at line 596
(`sorted(..., key=lambda x: x["creation_time"], reverse=True)`). -/
def snapGE (a b : SnapshotDescriptor) : Prop := b.creation_time ≤ a.creation_time

instance : DecidableRel snapGE := fun a b =>
  inferInstanceAs (Decidable (b.creation_time ≤ a.creation_time))

instance : IsTotal SnapshotDescriptor snapGE :=
  ⟨fun a b => le_total b.creation_time a.creation_time⟩

instance : IsTrans SnapshotDescriptor snapGE :=
  ⟨fun _ _ _ h1 h2 => le_trans h2 h1⟩

/-- `LibvirtManager.list_snapshots` (lines 575-598): build one descriptor per
snapshot, then sort by creation time, most recent first (a stable sort, as
Python sorted is). -/
def list_snapshots (snaps : List SnapshotXml) : List SnapshotDescriptor :=
  List.insertionSort snapGE (snaps.map snapDescOf)

/-! ### Helper lemmas -/

theorem round2_eq_round (q : ℚ) : round2 q = ((round (q * 100) : ℤ) : ℚ) / 100 := by
  rw [round_eq]; rfl

theorem round2_nonneg {q : ℚ} (h : 0 ≤ q) : 0 ≤ round2 q := by
  rw [round2_eq_round]
  have h1 : q * 100 - 1 / 2 < ((round (q * 100) : ℤ) : ℚ) := sub_half_lt_round _
  have h2 : (-1 : ℤ) < round (q * 100) := by
    have : (-1 : ℚ) < ((round (q * 100) : ℤ) : ℚ) := by linarith
    exact_mod_cast this
  have h3 : (0 : ℚ) ≤ ((round (q * 100) : ℤ) : ℚ) := by
    have : (0 : ℤ) ≤ round (q * 100) := by omega
    exact_mod_cast this
  linarith

theorem round2_le_100 {q : ℚ} (h : q ≤ 100) : round2 q ≤ 100 := by
  rw [round2_eq_round]
  have h1 : ((round (q * 100) : ℤ) : ℚ) ≤ q * 100 + 1 / 2 := round_le_add_half _
  have h2 : round (q * 100) < (10001 : ℤ) := by
    have : ((round (q * 100) : ℤ) : ℚ) < 10001 := by linarith
    exact_mod_cast this
  have h3 : ((round (q * 100) : ℤ) : ℚ) ≤ 10000 := by
    have : round (q * 100) ≤ (10000 : ℤ) := by omega
    exact_mod_cast this
  linarith

theorem round2_den (q : ℚ) : ∃ k : ℤ, round2 q = (k : ℚ) / 100 := ⟨_, rfl⟩

theorem round2_floor (q : ℚ) : round2 q = ((⌊q * 100 + 1 / 2⌋ : ℤ) : ℚ) / 100 := rfl

theorem pyClamp_nonneg (x : ℚ) : 0 ≤ pyClamp x := le_max_left 0 _

theorem pyClamp_le_100 (x : ℚ) : pyClamp x ≤ 100 :=
  max_le (by norm_num) (min_le_right x 100)

theorem containsStr_parts (p x q : String) : containsStr (p ++ x ++ q) x := by
  refine ⟨p.toList, q.toList, ?_⟩
  simp [String.toList]

theorem cpuSampleFinish_spec (t0 ts0 t1 ts1 : ℚ) (s : Bool) (n : Nat) :
    (0 ≤ (cpuSampleFinish t0 ts0 t1 ts1 s n).percent ∧
      (cpuSampleFinish t0 ts0 t1 ts1 s n).percent ≤ 100) ∧
    (∃ k : ℤ, (cpuSampleFinish t0 ts0 t1 ts1 s n).percent = (k : ℚ) / 100) ∧
    (ts1 - ts0 ≤ 0 → (cpuSampleFinish t0 ts0 t1 ts1 s n).percent = 0) ∧
    (0 < ts1 - ts0 → (cpuSampleFinish t0 ts0 t1 ts1 s n).percent =
      round2 (pyClamp (((t1 - t0) /
        ((ts1 - ts0) * (if n = 0 then 1 else (n : ℚ)) * 1e9)) * 100))) := by
  by_cases h : ts1 - ts0 ≤ 0
  · have hp : (cpuSampleFinish t0 ts0 t1 ts1 s n).percent = 0 := by
      simp [cpuSampleFinish, h]
    rw [hp]
    exact ⟨⟨le_refl 0, by norm_num⟩, ⟨0, by norm_num⟩, fun _ => rfl,
      fun h' => absurd h' (by linarith)⟩
  · have hp : (cpuSampleFinish t0 ts0 t1 ts1 s n).percent =
        round2 (pyClamp (((t1 - t0) /
          ((ts1 - ts0) * (if n = 0 then 1 else (n : ℚ)) * 1e9)) * 100)) := by
      simp [cpuSampleFinish, h]
    rw [hp]
    exact ⟨⟨round2_nonneg (pyClamp_nonneg _), round2_le_100 (pyClamp_le_100 _)⟩,
      round2_den _, fun h' => absurd h' h, fun _ => rfl⟩

/-! ### Claim theorems -/

/-- C9: the state projection is total over hypervisor state codes: each of
the eight known libvirt codes maps to its documented label, and every other
code maps to "unknown", so building a VM descriptor never fails on an
unrecognized state code. -/
theorem state_projection_total :
    stateLabel VIR_DOMAIN_NOSTATE = "no_state" ∧
    stateLabel VIR_DOMAIN_RUNNING = "running" ∧
    stateLabel VIR_DOMAIN_BLOCKED = "blocked" ∧
    stateLabel VIR_DOMAIN_PAUSED = "paused" ∧
    stateLabel VIR_DOMAIN_SHUTDOWN = "shutdown" ∧
    stateLabel VIR_DOMAIN_SHUTOFF = "stopped" ∧
    stateLabel VIR_DOMAIN_CRASHED = "crashed" ∧
    stateLabel VIR_DOMAIN_PMSUSPENDED = "suspended" ∧
    (∀ c : Nat, 8 ≤ c → stateLabel c = "unknown") := by
  refine ⟨rfl, rfl, rfl, rfl, rfl, rfl, rfl, rfl, ?_⟩
  intro c hc
  unfold stateLabel VM_STATE_MAP
  unfold VIR_DOMAIN_NOSTATE VIR_DOMAIN_RUNNING VIR_DOMAIN_BLOCKED VIR_DOMAIN_PAUSED
    VIR_DOMAIN_SHUTDOWN VIR_DOMAIN_SHUTOFF VIR_DOMAIN_CRASHED VIR_DOMAIN_PMSUSPENDED
  repeat rw [if_neg (by omega)]
  rfl

/-- Witness for C9: code 42 is unmapped and projects to "unknown". -/
theorem state_projection_total_witness :
    8 ≤ 42 ∧ stateLabel 42 = "unknown" :=
  ⟨by decide, state_projection_total.2.2.2.2.2.2.2.2 42 (by decide)⟩

/-- C7: `start_vm` on an already-active VM returns status `already_running`,
and `stop_vm` on an already-inactive VM returns status `already_stopped`,
in both cases without issuing any state-mutating hypervisor call (no
create, shutdown, or destroy). -/
theorem lifecycle_idempotent (dom : Domain) :
    (dom.active = true →
      (start_vm dom).1.status = "already_running" ∧
      ((start_vm dom).2.filter HyperCall.mutating) = []) ∧
    (dom.active = false → ∀ force : Bool,
      (stop_vm dom force).1.status = "already_stopped" ∧
      ((stop_vm dom force).2.filter HyperCall.mutating) = []) := by
  constructor
  · intro h
    simp [start_vm, h, HyperCall.mutating, List.filter]
  · intro h force
    simp [stop_vm, h, HyperCall.mutating, List.filter]

/-- Witness for C7: a concrete active VM and a concrete inactive VM. -/
theorem lifecycle_idempotent_witness :
    ((start_vm ⟨"vm1", true⟩).1.status = "already_running" ∧
      ((start_vm ⟨"vm1", true⟩).2.filter HyperCall.mutating) = []) ∧
    ((stop_vm ⟨"vm2", false⟩ true).1.status = "already_stopped" ∧
      ((stop_vm ⟨"vm2", false⟩ true).2.filter HyperCall.mutating) = []) :=
  ⟨(lifecycle_idempotent ⟨"vm1", true⟩).1 rfl,
   ⟨((lifecycle_idempotent ⟨"vm2", false⟩).2 rfl true).1,
    ((lifecycle_idempotent ⟨"vm2", false⟩).2 rfl true).2⟩⟩

/-- C10: `restart_vm` with `force=true` on an active VM returns status
"reset" when the hypervisor reset succeeds; "restarted_hard" is returned
exactly on the fallback path where reset raises and the VM is destroyed
and re-created. -/
theorem restart_reset_status (dom : Domain) (force resetFails : Bool) :
    (dom.active = true → force = true → resetFails = false →
      (restart_vm dom force resetFails).1.status = "reset" ∧
      (restart_vm dom force resetFails).2 = [.isActiveQ, .reset 0]) ∧
    ((restart_vm dom force resetFails).1.status = "restarted_hard" ↔
      dom.active = true ∧ force = true ∧ resetFails = true) ∧
    (dom.active = true → force = true → resetFails = true →
      (restart_vm dom force resetFails).2 = [.isActiveQ, .reset 0, .destroy, .create]) := by
  cases dom with
  | mk n a =>
      cases a <;> cases force <;> cases resetFails <;> simp [restart_vm]

/-- Witness for C10: concrete active VM, reset succeeding and failing. -/
theorem restart_reset_status_witness :
    (restart_vm ⟨"vm1", true⟩ true false).1.status = "reset" ∧
    (restart_vm ⟨"vm1", true⟩ true true).2 =
      [HyperCall.isActiveQ, .reset 0, .destroy, .create] :=
  ⟨((restart_reset_status ⟨"vm1", true⟩ true false).1 rfl rfl rfl).1,
   (restart_reset_status ⟨"vm1", true⟩ true true).2.2 rfl rfl rfl⟩

/-- C6: `update_resources` converts memory to KiB as `memory_mb * 1024`;
on an active VM both the memory and vCPU changes use the persistent
configuration flag and `restart_needed = true`; on an inactive VM both use
the "current" flag and `restart_needed = false`; the vCPU change always
targets the same flag as the memory change. -/
theorem update_resources_scope (dom : Domain) (vcpus memory_mb : Int) :
    (update_resources dom vcpus memory_mb).1.restart_needed = dom.active ∧
    ∃ f : Nat,
      (update_resources dom vcpus memory_mb).2 =
        [HyperCall.isActiveQ, .setMaxMemory (memory_mb * 1024),
         .setMemoryFlags (memory_mb * 1024) f, .setVcpusFlags vcpus f, .isActiveQ] ∧
      (dom.active = true → f = VIR_DOMAIN_AFFECT_CONFIG ∧
        (update_resources dom vcpus memory_mb).1.restart_needed = true) ∧
      (dom.active = false → f = VIR_DOMAIN_AFFECT_CURRENT ∧
        (update_resources dom vcpus memory_mb).1.restart_needed = false) := by
  cases dom with
  | mk n a =>
      cases a
      · refine ⟨rfl, VIR_DOMAIN_AFFECT_CURRENT, rfl, ?_, ?_⟩
        · intro h; exact Bool.noConfusion h
        · intro _; exact ⟨rfl, rfl⟩
      · refine ⟨rfl, VIR_DOMAIN_AFFECT_CONFIG, rfl, ?_, ?_⟩
        · intro _; exact ⟨rfl, rfl⟩
        · intro h; exact Bool.noConfusion h

/-- Witness for C6: the example from the spec: `update(vm, vcpus=4, memoryMb=2048)`
on an active and on an inactive VM. -/
theorem update_resources_scope_witness :
    (update_resources ⟨"vm1", true⟩ 4 2048).1.restart_needed = true ∧
    (update_resources ⟨"vm2", false⟩ 4 2048).1.restart_needed = false := by
  obtain ⟨-, f, -, h, -⟩ := update_resources_scope ⟨"vm1", true⟩ 4 2048
  obtain ⟨-, g, -, -, h'⟩ := update_resources_scope ⟨"vm2", false⟩ 4 2048
  exact ⟨(h rfl).2, (h' rfl).2⟩

/-- C5 counterexample: `_get_domain` turns a connection-level failure of
the lookup into `VMNotFoundError` as well, so "NotFoundError exactly when
the hypervisor cannot locate the domain" fails at the concrete outcome
`err connectionBroken`. -/
theorem get_domain_connection_cex :
    ¬ (∀ k : LibvirtErrKind, isVmNotFound (_get_domain "vm1" (.err k)) = true →
        k = LibvirtErrKind.noDomain) := by
  intro h
  exact absurd (h .connectionBroken rfl) (by decide)

/-- C5 amended: `_get_domain` raises `VMNotFoundError` exactly when
`lookupByName` raises a hypervisor error of any kind — including a
connection-level failure during lookup — and never a generic error;
on a successful lookup it returns the domain unchanged. -/
theorem get_domain_spec (name : String) (outcome : LookupOutcome) :
    (isVmNotFound (_get_domain name outcome) = true ↔
      ∃ k, outcome = LookupOutcome.err k) ∧
    (∀ d, outcome = LookupOutcome.found d → _get_domain name outcome = Except.ok d) := by
  cases outcome with
  | found d =>
      refine ⟨?_, ?_⟩
      · simp [_get_domain, isVmNotFound]
      · intro d' h
        cases h
        rfl
  | err k =>
      refine ⟨?_, ?_⟩
      · simp [_get_domain, isVmNotFound]
      · intro d' h
        exact LookupOutcome.noConfusion h

/-- Witness for the amended C5 theorem: a successful lookup. -/
theorem get_domain_spec_witness :
    _get_domain "vm1" (LookupOutcome.found ⟨"vm1", true⟩) = Except.ok ⟨"vm1", true⟩ :=
  (get_domain_spec "vm1" _).2 ⟨"vm1", true⟩ rfl

/-- C4 counterexample: the `OperationError` raised by `create_snapshot` for
VM "vm1" and snapshot "snap1" with underlying hypervisor message "boom"
carries neither the snapshot name nor the VM name, and the one raised by
`update_resources` carries no VM name either. -/
theorem operation_error_name_cex :
    ¬ containsStr (create_snapshot_error "boom") "snap1" ∧
    ¬ containsStr (create_snapshot_error "boom") "vm1" ∧
    ¬ containsStr (update_resources_error "boom") "vm1" := by
  refine ⟨?_, ?_, ?_⟩ <;> decide

/-- C4 amended: the `OperationError`s raised by the lifecycle actions
(`start_vm`, `stop_vm`, `restart_vm`) carry the offending VM name together
with the underlying hypervisor message; the ones raised by the snapshot
actions and by `update_resources` carry the underlying hypervisor message
but not the offending VM or snapshot name. -/
theorem operation_error_messages (name e : String) :
    (containsStr (start_vm_error name e) name ∧ containsStr (start_vm_error name e) e) ∧
    (containsStr (stop_vm_error name e) name ∧ containsStr (stop_vm_error name e) e) ∧
    (containsStr (restart_vm_error name e) name ∧ containsStr (restart_vm_error name e) e) ∧
    containsStr (create_snapshot_error e) e ∧
    containsStr (revert_snapshot_error e) e ∧
    containsStr (delete_snapshot_error e) e ∧
    containsStr (update_resources_error e) e := by
  refine ⟨⟨?_, ?_⟩, ⟨?_, ?_⟩, ⟨?_, ?_⟩, ?_, ?_, ?_, ?_⟩
  · exact ⟨("Impossible de démarrer la VM " ++ apos).toList, (apos ++ " : " ++ e).toList,
      by simp [start_vm_error, String.toList]⟩
  · exact ⟨("Impossible de démarrer la VM " ++ apos ++ name ++ apos ++ " : ").toList, [],
      by simp [start_vm_error, String.toList]⟩
  · exact ⟨("Impossible d" ++ apos ++ "arrêter la VM " ++ apos).toList,
      (apos ++ " : " ++ e).toList, by simp [stop_vm_error, String.toList]⟩
  · exact ⟨("Impossible d" ++ apos ++ "arrêter la VM " ++ apos ++ name ++ apos ++ " : ").toList,
      [], by simp [stop_vm_error, String.toList]⟩
  · exact ⟨("Impossible de redémarrer la VM " ++ apos).toList, (apos ++ " : " ++ e).toList,
      by simp [restart_vm_error, String.toList]⟩
  · exact ⟨("Impossible de redémarrer la VM " ++ apos ++ name ++ apos ++ " : ").toList, [],
      by simp [restart_vm_error, String.toList]⟩
  · exact ⟨("Impossible de créer le snapshot : ").toList, [],
      by simp [create_snapshot_error, String.toList]⟩
  · exact ⟨("Impossible de restaurer le snapshot : ").toList, [],
      by simp [revert_snapshot_error, String.toList]⟩
  · exact ⟨("Impossible de supprimer le snapshot : ").toList, [],
      by simp [delete_snapshot_error, String.toList]⟩
  · exact ⟨("Impossible de modifier les ressources : ").toList, [],
      by simp [update_resources_error, String.toList]⟩

/-- C8: `list_snapshots` returns the snapshot descriptors as a permutation
of the built descriptors, sorted by creation time in descending order;
for three snapshots created at times T1 < T2 < T3 the returned order is
[T3, T2, T1]. -/
theorem list_snapshots_sorted (snaps : List SnapshotXml) (s1 s2 s3 : SnapshotXml) :
    (list_snapshots snaps).Perm (snaps.map snapDescOf) ∧
    List.Sorted snapGE (list_snapshots snaps) ∧
    ((snapDescOf s1).creation_time < (snapDescOf s2).creation_time →
      (snapDescOf s2).creation_time < (snapDescOf s3).creation_time →
      list_snapshots [s1, s2, s3] = [snapDescOf s3, snapDescOf s2, snapDescOf s1]) := by
  refine ⟨List.perm_insertionSort snapGE _, List.sorted_insertionSort snapGE _, ?_⟩
  intro h12 h23
  have h13 := lt_trans h12 h23
  simp [list_snapshots, List.insertionSort, List.orderedInsert, snapGE,
    not_le.mpr h12, not_le.mpr h23, not_le.mpr h13]

/-- Witness for C8: three concrete snapshots created at times 1 < 2 < 3
come back in the order [3, 2, 1]. -/
theorem list_snapshots_sorted_witness :
    list_snapshots
      [⟨"a", some 1, some "running", false⟩, ⟨"b", some 2, none, false⟩,
       ⟨"c", some 3, some "shutoff", true⟩] =
    [⟨"c", 3, "shutoff", true⟩, ⟨"b", 2, "unknown", false⟩, ⟨"a", 1, "running", false⟩] := by
  have h := (list_snapshots_sorted [] ⟨"a", some 1, some "running", false⟩
      ⟨"b", some 2, none, false⟩ ⟨"c", some 3, some "shutoff", true⟩).2.2
      (by decide) (by decide)
  simpa [snapDescOf] using h

/-- C3 (code-bug evidence): on the failing input
`mem_stats = {rss: 500, available: 1500, actual: 1000}` with
`mem_kib = 1000` and `max_mem_kib = 2000`, line 418 computes the memory
percentage from the `rss` figure (25%), while the local named
`used_for_percent` — assigned the "actual" balloon figure at line 412 —
is never used; the spec-described percentage would be 50%. The
zero-ceiling guard does hold. -/
theorem memory_percent_divergence :
    (vm_metrics_memory (some ⟨some 500, some 1500, some 1000⟩) 1000 2000).memory_percent
      = 25 ∧
    (vm_metrics_memory (some ⟨some 500, some 1500, some 1000⟩) 1000 2000).used_for_percent
      = 1000 ∧
    spec_memory_percent (some ⟨some 500, some 1500, some 1000⟩) 1000 2000 = 50 ∧
    (25 : ℚ) ≠ 50 ∧
    (∀ memStats mem_kib, (vm_metrics_memory memStats mem_kib 0).memory_percent = 0) := by
  refine ⟨?_, rfl, ?_, by norm_num, ?_⟩
  · show (if (2000 : ℚ) > 0 then round2 ((((some (500:ℚ)).getD 1000) / 2000) * 100) else 0) = 25
    rw [if_pos (by norm_num)]
    norm_num [Option.getD, round2_floor]
  · show (if (2000 : ℚ) > 0 then round2 ((((some (1000:ℚ)).getD 1000) / 2000) * 100) else 0) = 50
    rw [if_pos (by norm_num)]
    norm_num [Option.getD, round2_floor]
  · intro memStats mem_kib
    cases memStats <;> simp [vm_metrics_memory]

/-- C1: the CPU percentage returned by `_compute_cpu_percent` always lies
in [0, 100] and has at most 2 decimal places; it is 0 whenever
`dt = timestamp_1 - timestamp_0 <= 0`; and when `dt > 0` it equals
`round2 (clamp (((t1 - t0) / (dt * num_cpus * 1e9)) * 100) 0 100)` with
`num_cpus = 1` whenever the live counter reports zero vCPUs — in
particular never negative, even when `t1 < t0`. -/
theorem cpu_percent_spec (cache : Option CacheEntry) (env : CpuEnv) :
    (0 ≤ (_compute_cpu_percent cache env).percent ∧
      (_compute_cpu_percent cache env).percent ≤ 100) ∧
    (∃ k : ℤ, (_compute_cpu_percent cache env).percent = (k : ℚ) / 100) ∧
    ((_compute_cpu_percent cache env).timestamp_1 -
        (_compute_cpu_percent cache env).timestamp_0 ≤ 0 →
      (_compute_cpu_percent cache env).percent = 0) ∧
    (0 < (_compute_cpu_percent cache env).timestamp_1 -
        (_compute_cpu_percent cache env).timestamp_0 →
      (_compute_cpu_percent cache env).percent =
        round2 (pyClamp ((((_compute_cpu_percent cache env).cpu_time_1 -
            (_compute_cpu_percent cache env).cpu_time_0) /
          (((_compute_cpu_percent cache env).timestamp_1 -
              (_compute_cpu_percent cache env).timestamp_0) *
            (if env.numCpus = 0 then 1 else (env.numCpus : ℚ)) * 1e9)) * 100))) := by
  cases cache with
  | none =>
      exact cpuSampleFinish_spec env.cpuRead1 env.now env.cpuRead2 env.sleepNow true env.numCpus
  | some prev =>
      by_cases hw : env.now - prev.timestamp < 5
      · have h : _compute_cpu_percent (some prev) env =
            cpuSampleFinish prev.cpu_time prev.timestamp env.cpuRead1 env.now false env.numCpus := by
          simp [_compute_cpu_percent, hw]
        rw [h]
        exact cpuSampleFinish_spec prev.cpu_time prev.timestamp env.cpuRead1 env.now false
          env.numCpus
      · have h : _compute_cpu_percent (some prev) env =
            cpuSampleFinish env.cpuRead1 env.now env.cpuRead2 env.sleepNow true env.numCpus := by
          simp [_compute_cpu_percent, hw]
        rw [h]
        exact cpuSampleFinish_spec env.cpuRead1 env.now env.cpuRead2 env.sleepNow true env.numCpus

/-- Witness for C1: a cold sample whose second clock reading is behind the
first (`dt = 4 - 5 < 0`) reports 0%. -/
theorem cpu_percent_spec_witness :
    ((_compute_cpu_percent none ⟨5, 100, 4, 200, 1⟩).timestamp_1 -
      (_compute_cpu_percent none ⟨5, 100, 4, 200, 1⟩).timestamp_0 ≤ 0) ∧
    (_compute_cpu_percent none ⟨5, 100, 4, 200, 1⟩).percent = 0 := by
  have hd : (_compute_cpu_percent none ⟨5, 100, 4, 200, 1⟩).timestamp_1 -
      (_compute_cpu_percent none ⟨5, 100, 4, 200, 1⟩).timestamp_0 ≤ 0 := by
    show (4 : ℚ) - 5 ≤ 0
    norm_num
  exact ⟨hd, (cpu_percent_spec none ⟨5, 100, 4, 200, 1⟩).2.2.1 hd⟩

/-- C2: a cache entry younger than 5 seconds is used as the baseline
without any sleep; with no entry, or an entry 5 or more seconds old, a
cold double-sample with a sleep is taken; the cache entry is overwritten
with `{cpu_time: t1, timestamp: now}` unconditionally on every call; and
two sample calls for the same VM less than 5 seconds apart (with the clock
having advanced) compute the percentage from a strictly positive `dt`. -/
theorem cpu_cache_spec :
    (∀ (prev : CacheEntry) (env : CpuEnv), env.now - prev.timestamp < 5 →
      (_compute_cpu_percent (some prev) env).slept = false ∧
      (_compute_cpu_percent (some prev) env).cpu_time_0 = prev.cpu_time ∧
      (_compute_cpu_percent (some prev) env).timestamp_0 = prev.timestamp ∧
      (_compute_cpu_percent (some prev) env).cpu_time_1 = env.cpuRead1 ∧
      (_compute_cpu_percent (some prev) env).timestamp_1 = env.now) ∧
    (∀ (prev : CacheEntry) (env : CpuEnv), ¬ (env.now - prev.timestamp < 5) →
      (_compute_cpu_percent (some prev) env).slept = true ∧
      (_compute_cpu_percent (some prev) env).cpu_time_0 = env.cpuRead1 ∧
      (_compute_cpu_percent (some prev) env).timestamp_0 = env.now ∧
      (_compute_cpu_percent (some prev) env).cpu_time_1 = env.cpuRead2 ∧
      (_compute_cpu_percent (some prev) env).timestamp_1 = env.sleepNow) ∧
    (∀ env : CpuEnv, (_compute_cpu_percent none env).slept = true) ∧
    (∀ (cache : Option CacheEntry) (env : CpuEnv),
      (_compute_cpu_percent cache env).newEntry =
        ⟨(_compute_cpu_percent cache env).cpu_time_1,
         (_compute_cpu_percent cache env).timestamp_1⟩) ∧
    (∀ (cache : Option CacheEntry) (env1 env2 : CpuEnv),
      (_compute_cpu_percent cache env1).newEntry.timestamp < env2.now →
      env2.now - (_compute_cpu_percent cache env1).newEntry.timestamp < 5 →
      (_compute_cpu_percent (some (_compute_cpu_percent cache env1).newEntry) env2).slept
          = false ∧
      0 < (_compute_cpu_percent (some (_compute_cpu_percent cache env1).newEntry)
            env2).timestamp_1 -
          (_compute_cpu_percent (some (_compute_cpu_percent cache env1).newEntry)
            env2).timestamp_0 ∧
      (_compute_cpu_percent (some (_compute_cpu_percent cache env1).newEntry) env2).percent =
        round2 (pyClamp ((((_compute_cpu_percent
              (some (_compute_cpu_percent cache env1).newEntry) env2).cpu_time_1 -
            (_compute_cpu_percent (some (_compute_cpu_percent cache env1).newEntry)
              env2).cpu_time_0) /
          (((_compute_cpu_percent (some (_compute_cpu_percent cache env1).newEntry)
                env2).timestamp_1 -
              (_compute_cpu_percent (some (_compute_cpu_percent cache env1).newEntry)
                env2).timestamp_0) *
            (if env2.numCpus = 0 then 1 else (env2.numCpus : ℚ)) * 1e9)) * 100))) := by
  refine ⟨?_, ?_, ?_, ?_, ?_⟩
  · intro prev env h
    have hs : _compute_cpu_percent (some prev) env =
        cpuSampleFinish prev.cpu_time prev.timestamp env.cpuRead1 env.now false env.numCpus := by
      simp [_compute_cpu_percent, h]
    rw [hs]
    exact ⟨rfl, rfl, rfl, rfl, rfl⟩
  · intro prev env h
    have hs : _compute_cpu_percent (some prev) env =
        cpuSampleFinish env.cpuRead1 env.now env.cpuRead2 env.sleepNow true env.numCpus := by
      simp [_compute_cpu_percent, h]
    rw [hs]
    exact ⟨rfl, rfl, rfl, rfl, rfl⟩
  · intro env
    rfl
  · intro cache env
    cases cache with
    | none => rfl
    | some prev =>
        by_cases h : env.now - prev.timestamp < 5 <;>
          simp [_compute_cpu_percent, h, cpuSampleFinish]
  · intro cache env1 env2
    generalize (_compute_cpu_percent cache env1).newEntry = e
    intro h1 h2
    have hs : _compute_cpu_percent (some e) env2 =
        cpuSampleFinish e.cpu_time e.timestamp env2.cpuRead1 env2.now false env2.numCpus := by
      simp [_compute_cpu_percent, h2]
    rw [hs]
    have hdt : 0 < env2.now - e.timestamp := by linarith
    refine ⟨rfl, hdt, ?_⟩
    exact (cpuSampleFinish_spec e.cpu_time e.timestamp env2.cpuRead1 env2.now false
      env2.numCpus).2.2.2 hdt

/-- Witness for C2: a warm hit 1 second after the cached timestamp, and a
cold first call followed 1 second later by a warm second call with a
strictly positive `dt`. -/
theorem cpu_cache_spec_witness :
    ((2 : ℚ) - 1 < 5 ∧
      (_compute_cpu_percent (some ⟨0, 1⟩) ⟨2, 7, 0, 0, 1⟩).slept = false ∧
      (_compute_cpu_percent (some ⟨0, 1⟩) ⟨2, 7, 0, 0, 1⟩).timestamp_0 = 1) ∧
    (0 < (_compute_cpu_percent
        (some (_compute_cpu_percent none ⟨0, 0, 1, 5000000000, 1⟩).newEntry)
        ⟨2, 7000000000, 0, 0, 1⟩).timestamp_1 -
      (_compute_cpu_percent
        (some (_compute_cpu_percent none ⟨0, 0, 1, 5000000000, 1⟩).newEntry)
        ⟨2, 7000000000, 0, 0, 1⟩).timestamp_0) := by
  have hwarm := cpu_cache_spec.1 ⟨0, 1⟩ ⟨2, 7, 0, 0, 1⟩ (by norm_num : (2 : ℚ) - 1 < 5)
  have hseq := cpu_cache_spec.2.2.2.2 none ⟨0, 0, 1, 5000000000, 1⟩ ⟨2, 7000000000, 0, 0, 1⟩
    (show (1 : ℚ) < 2 by norm_num) (show (2 : ℚ) - 1 < 5 by norm_num)
  exact ⟨⟨by norm_num, hwarm.1, hwarm.2.2.1⟩, hseq.2.1⟩

end MobileKVM
